import Mathlib

/-!
Verification development for the rewards-goblin core: a shallow embedding of
the Ledger Client retry loop (`src/utils/aos.ts`), the `AchievementsService`
ledger-state cache / ACL bootstrap / award protocol, and the
`RewardsProcessor` event routing, together with theorems settling the
specification claims about them.
-/

/-! ### JavaScript-style helpers

JS objects are modelled as association lists with first-match lookup,
JS `String.prototype.includes` as a substring test on character lists,
and JS truthiness of an optional boolean property. -/

/-- Property lookup on a JS object modelled as an association list. -/
def jsGet {α : Type} (l : List (String × α)) (k : String) : Option α :=
  (l.find? (fun p => p.1 = k)).map (fun p => p.2)

/-- JS truthiness of `obj[k]` when the property holds a boolean. -/
def jsTruthy (o : Option Bool) : Bool :=
  match o with
  | some b => b
  | none => false

/-- Substring test on character lists (the core of JS `includes`). -/
def hasSubstrAux (needle : List Char) : List Char → Bool
  | [] => needle.isEmpty
  | c :: t => needle.isPrefixOf (c :: t) || hasSubstrAux needle t

/-- JS `hay.includes(needle)`. -/
def strIncludes (hay needle : String) : Bool :=
  hasSubstrAux needle.toList hay.toList

/-! ### Ledger Client: `sendAosDryRun` / `sendAosMessage`

Both functions in `src/utils/aos.ts` run the same `while (attempts < retries)`
loop: run the attempt; on success return; on an error whose message includes
`'500'`, sleep `2 ** attempts * 2000` ms, increment `attempts`, record the
error as `lastError` and loop; on any other error re-throw immediately.
After the loop, throw `lastError` if set, else a generic error.

The attempt body (the awaited transport calls) is abstracted as a function
from the attempt counter to that attempt's outcome; the backoff sleeps and
the number of attempts executed are recorded in the returned trace. -/

/-- Outcome of one transport attempt: a value or a thrown error message. -/
inductive AttemptResult (α : Type) where
  | ok (a : α)
  | err (msg : String)

/-- Observable trace of one Ledger Client call: final result, the backoff
sleeps performed (in ms, in order), and how many attempts ran. -/
structure RetryTrace (α : Type) where
  result : Except String α
  sleeps : List Nat
  attemptCount : Nat

/-- The shared retry loop, structurally recursive on the remaining budget
`retries - attempts` (`fuel`); `attempts` is the source's counter and indexes
the outcome of the next attempt; `lastError` is the source's `lastError`. -/
def retryGo {α : Type} (outcome : Nat → AttemptResult α) :
    Nat → Nat → Option String → RetryTrace α
  | 0, _, lastError =>
    match lastError with
    | some m => ⟨Except.error m, [], 0⟩
    | none => ⟨Except.error "Unknown error occurred", [], 0⟩
  | fuel + 1, attempts, _ =>
    match outcome attempts with
    | AttemptResult.ok a => ⟨Except.ok a, [], 1⟩
    | AttemptResult.err m =>
      if strIncludes m "500" then
        let t := retryGo outcome fuel (attempts + 1) (some m)
        ⟨t.result, (2 ^ attempts * 2000) :: t.sleeps, t.attemptCount + 1⟩
      else ⟨Except.error m, [], 1⟩

/-- Entry into the retry loop with `attempts = 0`, `lastError = undefined`. -/
def runRetryLoop {α : Type} (outcome : Nat → AttemptResult α) (retries : Nat) :
    RetryTrace α :=
  retryGo outcome retries 0 none

/-- The parsed dry-run response shape consumed by `parseProcessInfo`:
`result.Messages` may be absent, and each message may lack `Data`. -/
structure DryRunMessage where
  Data : Option String
deriving DecidableEq

/-- A dry-run result as inspected by the service (`result.Messages`). -/
structure DryRunResult where
  Messages : Option (List DryRunMessage)
deriving DecidableEq

/-- Abstract result of `aoResult` for a signed message. -/
structure MessageResult where
  raw : String
deriving DecidableEq

/-- Successful outcome of `sendAosMessage`: the message id and the fetched
result. -/
structure SendMessageOk where
  messageId : String
  result : MessageResult
deriving DecidableEq

/-- `sendAosDryRun(opts, retries = 3)`: one attempt is one `aoDryRun` call. -/
def sendAosDryRun (outcome : Nat → AttemptResult DryRunResult)
    (retries : Nat := 3) : RetryTrace DryRunResult :=
  runRetryLoop outcome retries

/-- `sendAosMessage(opts, retries = 3)`: one attempt is the `aoMessage` send
followed by the `aoResult` fetch, both inside the same `try`. -/
def sendAosMessage (outcome : Nat → AttemptResult SendMessageOk)
    (retries : Nat := 3) : RetryTrace SendMessageOk :=
  runRetryLoop outcome retries

/-! ### Ledger state data model (`achievements.service.ts` interfaces)

JS objects keyed by id/address are association lists; fields the service
explicitly guards against absence of (`acl`, `acl.roles`,
`cheese_mints_by_id`) are `Option`s, since the state is produced by an
unvalidated `JSON.parse`. -/

/-- A `CheeseMint` catalog entry. -/
structure CheeseMint where
  id : String
  name : String
  created_at : Nat
  updated_at : Option Nat
  created_by : String
  description : String
  points : Int
  icon : String
  category : String
deriving DecidableEq

/-- A `CheeseMintAward` record: evidence a wallet already received a mint. -/
structure CheeseMintAward where
  awarded_by : String
  awarded_at : Nat
  message_id : String
deriving DecidableEq

/-- The ACL section: role name to (address to enabled flag). -/
structure CheeseMintCollectionACLState where
  roles : Option (List (String × List (String × Bool)))
deriving DecidableEq

/-- The full ledger-state snapshot: `CheeseMintCollectionState`. -/
structure CheeseMintCollectionState where
  owner : String
  acl : Option CheeseMintCollectionACLState
  cheese_mints_by_id : Option (List (String × CheeseMint))
  cheese_mints_by_address : List (String × List (String × CheeseMintAward))
deriving DecidableEq

/-- The five required achievement names (`REQUIRED_ACHIEVEMENTS`). -/
def ACHIEVEMENT_WUZZY_SEARCHER : String := "Wuzzy Searcher"

/-- `ACHIEVEMENT_WUZZY_VIDEO_SEARCHER`. -/
def ACHIEVEMENT_WUZZY_VIDEO_SEARCHER : String := "Wuzzy Video Searcher"

/-- `ACHIEVEMENT_WUZZY_IMAGE_SEARCHER`. -/
def ACHIEVEMENT_WUZZY_IMAGE_SEARCHER : String := "Wuzzy Image Searcher"

/-- `ACHIEVEMENT_WUZZY_ARNS_SEARCHER`. -/
def ACHIEVEMENT_WUZZY_ARNS_SEARCHER : String := "Wuzzy ArNS Searcher"

/-- `ACHIEVEMENT_WUZZY_AUDIO_SEARCHER`. -/
def ACHIEVEMENT_WUZZY_AUDIO_SEARCHER : String := "Wuzzy Audio Searcher"

/-- `REQUIRED_ACHIEVEMENTS`, in source order. -/
def REQUIRED_ACHIEVEMENTS : List String :=
  [ACHIEVEMENT_WUZZY_SEARCHER,
   ACHIEVEMENT_WUZZY_VIDEO_SEARCHER,
   ACHIEVEMENT_WUZZY_IMAGE_SEARCHER,
   ACHIEVEMENT_WUZZY_ARNS_SEARCHER,
   ACHIEVEMENT_WUZZY_AUDIO_SEARCHER]

/-! ### AchievementsService state and configuration -/

/-- The service's mutable cache fields: `stateCache` and
`stateCacheTimestamp` (initially `null` and `0`). -/
structure ServiceState where
  stateCache : Option CheeseMintCollectionState
  stateCacheTimestamp : Nat
deriving DecidableEq

/-- The service state as constructed (`stateCache = null`, timestamp `0`). -/
def initialServiceState : ServiceState := ⟨none, 0⟩

/-- Immutable service context: the cache TTL, the derived wallet address,
and `JSON.parse` specialised to the state payload (an external library
function, modelled as a partial decoder). -/
structure ServiceConfig where
  stateCacheTtlMs : Nat
  walletAddress : String
  jsonParse : String → Option CheeseMintCollectionState

/-- `parseProcessInfo(result)`: the inner guards throw on a missing/empty
`Messages` array, a missing or empty first-message `Data` (JS falsiness
covers the empty string), or a `JSON.parse` failure; the surrounding `catch`
rethrows every such failure as `Invalid process info format`. -/
def parseProcessInfo (jsonParse : String → Option CheeseMintCollectionState)
    (result : DryRunResult) : Except String CheeseMintCollectionState :=
  match result.Messages with
  | none => Except.error "Invalid process info format"
  | some [] => Except.error "Invalid process info format"
  | some (firstMessage :: _) =>
    match firstMessage.Data with
    | none => Except.error "Invalid process info format"
    | some d =>
      if d = "" then Except.error "Invalid process info format"
      else
        match jsonParse d with
        | none => Except.error "Invalid process info format"
        | some info => Except.ok info

/-- Result of a `getProcessState` call: the returned (or thrown) value, the
service state afterwards, and whether a remote dry-run query was issued. -/
structure GetStateOut where
  result : Except String CheeseMintCollectionState
  state : ServiceState
  queried : Bool

/-- The fetch path of `getProcessState`: issue the dry-run (its outcome,
including transport failure after the Ledger Client's own retries, is the
`remote` input), parse, and on success replace cache and timestamp. -/
def fetchFreshState (cfg : ServiceConfig) (now : Nat)
    (remote : Except String DryRunResult) (s : ServiceState) : GetStateOut :=
  match remote with
  | Except.error e => ⟨Except.error e, s, true⟩
  | Except.ok dryRunResponse =>
    match parseProcessInfo cfg.jsonParse dryRunResponse with
    | Except.error e => ⟨Except.error e, s, true⟩
    | Except.ok info => ⟨Except.ok info, ⟨some info, now⟩, true⟩

/-- `getProcessState(forceRefresh = false)`: serve the cache when it is
non-null, younger than the TTL, and no refresh is forced; otherwise fetch
fresh state. `now` is `Date.now()` at entry. -/
def getProcessState (cfg : ServiceConfig) (now : Nat)
    (remote : Except String DryRunResult) (s : ServiceState)
    (forceRefresh : Bool := false) : GetStateOut :=
  match s.stateCache with
  | some cached =>
    if forceRefresh = false ∧ now - s.stateCacheTimestamp < cfg.stateCacheTtlMs
    then ⟨Except.ok cached, s, false⟩
    else fetchFreshState cfg now remote s
  | none => fetchFreshState cfg now remote s

/-- `invalidateStateCache()`: clears the cache and zeroes the timestamp. -/
def invalidateStateCache : ServiceState := ⟨none, 0⟩

/-- Result of a `hasAchievement` call. -/
structure HasOut where
  result : Except String Bool
  state : ServiceState
  queried : Bool

/-- `hasAchievement(walletAddress, achievementId)`: read (possibly cached)
state and test `achievementId in state.cheese_mints_by_address[wallet]`. -/
def hasAchievement (cfg : ServiceConfig) (now : Nat)
    (remote : Except String DryRunResult) (s : ServiceState)
    (walletAddress achievementId : String) : HasOut :=
  let g := getProcessState cfg now remote s
  match g.result with
  | Except.error e => ⟨Except.error e, g.state, g.queried⟩
  | Except.ok state =>
    match jsGet state.cheese_mints_by_address walletAddress with
    | none => ⟨Except.ok false, g.state, g.queried⟩
    | some awardsByAddress =>
      ⟨Except.ok (jsGet awardsByAddress achievementId).isSome, g.state,
        g.queried⟩

/-- An outbound signed message, identified by its tag list. -/
structure SentMessage where
  tags : List (String × String)
deriving DecidableEq

/-- The tags of the `Award-Cheese-Mint` message sent by `awardAchievement`. -/
def awardTags (achievementId walletAddress : String) : SentMessage :=
  ⟨[("Action", "Award-Cheese-Mint"),
    ("Cheese-Mint-Id", achievementId),
    ("Award-To-Address", walletAddress)]⟩

/-- Result of an `awardAchievement` call: returned/thrown value, service
state afterwards, whether a dry-run query was issued, and the outbound
signed send messages attempted (the `sendAosMessage` calls made). -/
structure AwardOut where
  result : Except String Unit
  state : ServiceState
  queried : Bool
  sends : List SentMessage

/-- `getAchievementId(name)`: lookup in the startup-built map, `undefined`
when absent. -/
def getAchievementId (ids : List (String × String)) (achievementName : String) :
    Option String :=
  jsGet ids achievementName

/-- `awardAchievement(achievementName, walletAddress)`: resolve the name
(no-op when unresolved), check `hasAchievement` (early return when already
awarded; its read may refresh the cache), otherwise send the signed award
message (`sendOutcome` is that call's outcome); on success invalidate the
cache, on failure rethrow leaving the cache as the check left it. -/
def awardAchievement (cfg : ServiceConfig) (ids : List (String × String))
    (now : Nat) (remote : Except String DryRunResult)
    (sendOutcome : Except String SendMessageOk) (s : ServiceState)
    (achievementName walletAddress : String) : AwardOut :=
  match getAchievementId ids achievementName with
  | none => ⟨Except.ok (), s, false, []⟩
  | some achievementId =>
    let h := hasAchievement cfg now remote s walletAddress achievementId
    match h.result with
    | Except.error e => ⟨Except.error e, h.state, h.queried, []⟩
    | Except.ok true => ⟨Except.ok (), h.state, h.queried, []⟩
    | Except.ok false =>
      match sendOutcome with
      | Except.ok _ =>
        ⟨Except.ok (), invalidateStateCache, h.queried,
          [awardTags achievementId walletAddress]⟩
      | Except.error e =>
        ⟨Except.error e, h.state, h.queried,
          [awardTags achievementId walletAddress]⟩

/-! ### Startup verification -/

/-- `verifyAclPermissions(info)`: returns the thrown error (if any) together
with the error-level log lines emitted on the missing-permission path. -/
def verifyAclPermissions (walletAddress : String)
    (info : CheeseMintCollectionState) : Except String Unit × List String :=
  match info.acl with
  | none => (Except.error "No ACL found in process info", [])
  | some acl =>
    match acl.roles with
    | none => (Except.error "No ACL found in process info", [])
    | some roles =>
      match jsGet roles "Award-Cheese-Mint" with
      | none =>
        (Except.error "Award-Cheese-Mint permission not configured in ACL", [])
      | some awardPermissions =>
        if jsTruthy (jsGet awardPermissions walletAddress) then
          (Except.ok (), [])
        else
          (Except.error
            "Wallet does not have Award-Cheese-Mint permission in AO process",
           ["Wallet " ++ walletAddress ++ " is not in Award-Cheese-Mint ACL",
            "Allowed addresses: " ++ String.intercalate ", "
              (((awardPermissions.filter (fun p => p.2)).map (fun p => p.1)))])

/-- `Map.set` on the name-to-id map: replace an existing binding in place or
append a fresh one. -/
def mapSet (m : List (String × String)) (k v : String) :
    List (String × String) :=
  if m.any (fun p => p.1 = k) then
    m.map (fun p => if p.1 = k then (k, v) else p)
  else m ++ [(k, v)]

/-- The names among `REQUIRED_ACHIEVEMENTS` missing from a name-to-id map. -/
def missingRequired (m : List (String × String)) : List String :=
  REQUIRED_ACHIEVEMENTS.filter (fun name => (jsGet m name).isNone)

/-- `loadAchievementIds(info)`: populate `achievementIdsByName` from
`cheese_mints_by_id` (insertion order), then fail when any required name is
missing. Returns the updated map and the error-level log lines. -/
def loadAchievementIds (ids : List (String × String))
    (info : CheeseMintCollectionState) :
    Except String (List (String × String)) × List String :=
  match info.cheese_mints_by_id with
  | none => (Except.error "No cheese_mints_by_id found in process info", [])
  | some mintsById =>
    let m := mintsById.foldl (fun acc p => mapSet acc p.2.name p.1) ids
    let missingAchievements := missingRequired m
    if missingAchievements = [] then (Except.ok m, [])
    else
      (Except.error ("Required achievements not found: " ++
          String.intercalate ", " missingAchievements),
       ["Missing required achievements: " ++
          String.intercalate ", " missingAchievements])

/-- Result of `verifyInitialization`: the updated name-to-id map on success,
the cache state afterwards, whether a remote query was issued, and the
error-level log lines of the two checks. -/
structure VerifyOut where
  result : Except String (List (String × String))
  state : ServiceState
  queried : Bool
  errorLogs : List String

/-- `verifyInitialization()`: `getProcessState()` (note: without
`forceRefresh`), then the ACL check, then the achievement-id load; every
failure propagates. -/
def verifyInitialization (cfg : ServiceConfig) (now : Nat)
    (remote : Except String DryRunResult) (ids : List (String × String))
    (s : ServiceState) : VerifyOut :=
  let g := getProcessState cfg now remote s
  match g.result with
  | Except.error e => ⟨Except.error e, g.state, g.queried, []⟩
  | Except.ok state =>
    match verifyAclPermissions cfg.walletAddress state with
    | (Except.error e, logs) => ⟨Except.error e, g.state, g.queried, logs⟩
    | (Except.ok _, logs) =>
      match loadAchievementIds ids state with
      | (Except.error e, logs2) =>
        ⟨Except.error e, g.state, g.queried, logs ++ logs2⟩
      | (Except.ok ids2, logs2) =>
        ⟨Except.ok ids2, g.state, g.queried, logs ++ logs2⟩

/-- Whether `walletAddress` is enabled under the `Award-Cheese-Mint` role of
a state's ACL (an absent role or a false/absent flag both count as not
enabled). Used to phrase claims about the ACL check. -/
def walletEnabled (info : CheeseMintCollectionState) (walletAddress : String) :
    Bool :=
  match info.acl with
  | none => false
  | some acl =>
    match acl.roles with
    | none => false
    | some roles =>
      match jsGet roles "Award-Cheese-Mint" with
      | none => false
      | some awardPermissions =>
        jsTruthy (jsGet awardPermissions walletAddress)

/-! ### RewardsProcessor (`rewards.processor.ts`)

The wallet validator lives outside this repository's core file set; the
processor only branches on the shape of its result, so the validation result
is an input. Each handler's `awardAchievement` calls are recorded in order;
their outcomes come from `awardOutcome` (the i-th call of the job). -/

/-- The `WalletValidator.validateAndNormalize` result shape as the processor
consumes it (optional fields model JS `undefined`). -/
structure ValidationResult where
  valid : Bool
  type : Option String
  normalized : Option String
  error : Option String

/-- A reward event payload. -/
structure RewardEventData where
  eventType : String
  walletAddress : String
  metadata : Option (List (String × String))

/-- A dequeued job: BullMQ `job.name` routes, `job.data` is the payload. -/
structure JobInfo where
  name : String
  data : RewardEventData

/-- The structured result record a handler resolves with. -/
structure HandlerResult where
  success : Bool
  eventType : String
  wallet : String
  walletType : String
  processedAt : String
  metadata : Option (List (String × String))

/-- Outcome of processing one job: the returned record or thrown error, and
the `awardAchievement` invocations `(achievementName, wallet)` in order. -/
structure ProcOut where
  result : Except String HandlerResult
  invocations : List (String × String)

/-- String interpolation of a possibly-undefined JS value. -/
def jsShow (o : Option String) : String :=
  match o with
  | some s => s
  | none => "undefined"

/-- `handleArnsSearch`: award `Wuzzy Searcher` then `Wuzzy ArNS Searcher`,
awaiting each; then resolve the result record. -/
def handleArnsSearch (job : JobInfo) (normalizedWallet walletType : String)
    (nowIso : String) (awardOutcome : Nat → Except String Unit) : ProcOut :=
  match awardOutcome 0 with
  | Except.error e =>
    ⟨Except.error e, [(ACHIEVEMENT_WUZZY_SEARCHER, normalizedWallet)]⟩
  | Except.ok _ =>
    match awardOutcome 1 with
    | Except.error e =>
      ⟨Except.error e,
       [(ACHIEVEMENT_WUZZY_SEARCHER, normalizedWallet),
        (ACHIEVEMENT_WUZZY_ARNS_SEARCHER, normalizedWallet)]⟩
    | Except.ok _ =>
      ⟨Except.ok ⟨true, "arns-search", normalizedWallet, walletType, nowIso,
          job.data.metadata⟩,
       [(ACHIEVEMENT_WUZZY_SEARCHER, normalizedWallet),
        (ACHIEVEMENT_WUZZY_ARNS_SEARCHER, normalizedWallet)]⟩

/-- `handleImageSearch`: award `Wuzzy Searcher` then `Wuzzy Image Searcher`. -/
def handleImageSearch (job : JobInfo) (normalizedWallet walletType : String)
    (nowIso : String) (awardOutcome : Nat → Except String Unit) : ProcOut :=
  match awardOutcome 0 with
  | Except.error e =>
    ⟨Except.error e, [(ACHIEVEMENT_WUZZY_SEARCHER, normalizedWallet)]⟩
  | Except.ok _ =>
    match awardOutcome 1 with
    | Except.error e =>
      ⟨Except.error e,
       [(ACHIEVEMENT_WUZZY_SEARCHER, normalizedWallet),
        (ACHIEVEMENT_WUZZY_IMAGE_SEARCHER, normalizedWallet)]⟩
    | Except.ok _ =>
      ⟨Except.ok ⟨true, "image-search", normalizedWallet, walletType, nowIso,
          job.data.metadata⟩,
       [(ACHIEVEMENT_WUZZY_SEARCHER, normalizedWallet),
        (ACHIEVEMENT_WUZZY_IMAGE_SEARCHER, normalizedWallet)]⟩

/-- `handleAudioSearch`: award `Wuzzy Searcher` then `Wuzzy Audio Searcher`. -/
def handleAudioSearch (job : JobInfo) (normalizedWallet walletType : String)
    (nowIso : String) (awardOutcome : Nat → Except String Unit) : ProcOut :=
  match awardOutcome 0 with
  | Except.error e =>
    ⟨Except.error e, [(ACHIEVEMENT_WUZZY_SEARCHER, normalizedWallet)]⟩
  | Except.ok _ =>
    match awardOutcome 1 with
    | Except.error e =>
      ⟨Except.error e,
       [(ACHIEVEMENT_WUZZY_SEARCHER, normalizedWallet),
        (ACHIEVEMENT_WUZZY_AUDIO_SEARCHER, normalizedWallet)]⟩
    | Except.ok _ =>
      ⟨Except.ok ⟨true, "audio-search", normalizedWallet, walletType, nowIso,
          job.data.metadata⟩,
       [(ACHIEVEMENT_WUZZY_SEARCHER, normalizedWallet),
        (ACHIEVEMENT_WUZZY_AUDIO_SEARCHER, normalizedWallet)]⟩

/-- `handleVideoSearch`: award `Wuzzy Searcher` then `Wuzzy Video Searcher`. -/
def handleVideoSearch (job : JobInfo) (normalizedWallet walletType : String)
    (nowIso : String) (awardOutcome : Nat → Except String Unit) : ProcOut :=
  match awardOutcome 0 with
  | Except.error e =>
    ⟨Except.error e, [(ACHIEVEMENT_WUZZY_SEARCHER, normalizedWallet)]⟩
  | Except.ok _ =>
    match awardOutcome 1 with
    | Except.error e =>
      ⟨Except.error e,
       [(ACHIEVEMENT_WUZZY_SEARCHER, normalizedWallet),
        (ACHIEVEMENT_WUZZY_VIDEO_SEARCHER, normalizedWallet)]⟩
    | Except.ok _ =>
      ⟨Except.ok ⟨true, "video-search", normalizedWallet, walletType, nowIso,
          job.data.metadata⟩,
       [(ACHIEVEMENT_WUZZY_SEARCHER, normalizedWallet),
        (ACHIEVEMENT_WUZZY_VIDEO_SEARCHER, normalizedWallet)]⟩

/-- `handleEvent`: route on `job.name`; unknown names throw. -/
def handleEvent (job : JobInfo) (normalizedWallet walletType : String)
    (nowIso : String) (awardOutcome : Nat → Except String Unit) : ProcOut :=
  if job.name = "arns-search" then
    handleArnsSearch job normalizedWallet walletType nowIso awardOutcome
  else if job.name = "image-search" then
    handleImageSearch job normalizedWallet walletType nowIso awardOutcome
  else if job.name = "audio-search" then
    handleAudioSearch job normalizedWallet walletType nowIso awardOutcome
  else if job.name = "video-search" then
    handleVideoSearch job normalizedWallet walletType nowIso awardOutcome
  else ⟨Except.error ("Unknown job type: " ++ job.name), []⟩

/-- `RewardsProcessor.process(job)`: validate the wallet (failing the job
with a descriptive error before any award call), defensively re-check the
normalized fields (JS falsiness covers both `undefined` and the empty
string), then route; the `catch` logs and re-throws unchanged. -/
def processRewardJob (job : JobInfo) (validation : ValidationResult)
    (nowIso : String) (awardOutcome : Nat → Except String Unit) : ProcOut :=
  if validation.valid = false then
    ⟨Except.error ("Wallet validation failed: " ++ jsShow validation.error),
     []⟩
  else
    match validation.normalized, validation.type with
    | some nw, some wt =>
      if nw = "" ∨ wt = "" then
        ⟨Except.error "Validation succeeded but missing normalized data", []⟩
      else handleEvent job nw wt nowIso awardOutcome
    | _, _ =>
      ⟨Except.error "Validation succeeded but missing normalized data", []⟩

/-! ### Sample data used by witness instantiations -/

/-- A catalog entry with a given name (other fields arbitrary). -/
def sampleMint (name : String) : CheeseMint :=
  ⟨"", name, 0, none, "creator", "", 0, "", ""⟩

/-- A catalog holding exactly the five required achievements. -/
def sampleCatalog : List (String × CheeseMint) :=
  [("a1", sampleMint ACHIEVEMENT_WUZZY_SEARCHER),
   ("a2", sampleMint ACHIEVEMENT_WUZZY_VIDEO_SEARCHER),
   ("a3", sampleMint ACHIEVEMENT_WUZZY_IMAGE_SEARCHER),
   ("a4", sampleMint ACHIEVEMENT_WUZZY_ARNS_SEARCHER),
   ("a5", sampleMint ACHIEVEMENT_WUZZY_AUDIO_SEARCHER)]

/-- An ACL enabling `walletA` (and disabling `walletB`) for awards. -/
def sampleAcl : CheeseMintCollectionACLState :=
  ⟨some [("Award-Cheese-Mint", [("walletA", true), ("walletB", false)])]⟩

/-- A full ledger state with no awards recorded. -/
def sampleStateNoAward : CheeseMintCollectionState :=
  ⟨"owner", some sampleAcl, some sampleCatalog, []⟩

/-- A sample award record. -/
def sampleAward : CheeseMintAward := ⟨"walletA", 1, "mid-1"⟩

/-- A full ledger state where `walletU` already holds achievement `a1`. -/
def sampleStateAwarded : CheeseMintCollectionState :=
  ⟨"owner", some sampleAcl, some sampleCatalog,
   [("walletU", [("a1", sampleAward)])]⟩

/-- A service config whose payload decoder maps `p1` to the no-award state
and `p2` to the awarded state. -/
def sampleConfig : ServiceConfig :=
  ⟨300000, "walletA",
   fun s =>
     if s = "p1" then some sampleStateNoAward
     else if s = "p2" then some sampleStateAwarded
     else none⟩

/-- A dry-run response carrying the given payload in its first message. -/
def dryRunWith (payload : String) : DryRunResult := ⟨some [⟨some payload⟩]⟩

/-! ### Retry-loop lemmas -/

theorem retryGo_attemptCount_le {α : Type} (o : Nat → AttemptResult α) :
    ∀ (fuel attempts : Nat) (le : Option String),
      (retryGo o fuel attempts le).attemptCount ≤ fuel := by
  intro fuel
  induction fuel with
  | zero => intro attempts le; cases le <;> simp [retryGo]
  | succ n ih =>
    intro attempts le
    cases h : o attempts with
    | ok a => simp [retryGo, h]
    | err m =>
      by_cases h5 : strIncludes m "500" = true
      · simp only [retryGo, h, h5, if_true]
        exact Nat.succ_le_succ (ih _ _)
      · simp only [Bool.not_eq_true] at h5
        simp [retryGo, h, h5]

theorem retryGo_sleeps_schedule {α : Type} (o : Nat → AttemptResult α) :
    ∀ (fuel attempts : Nat) (le : Option String),
      ∃ n, (retryGo o fuel attempts le).sleeps =
        (List.range n).map (fun i => 2 ^ (attempts + i) * 2000) := by
  intro fuel
  induction fuel with
  | zero => intro attempts le; exact ⟨0, by cases le <;> simp [retryGo]⟩
  | succ k ih =>
    intro attempts le
    cases h : o attempts with
    | ok a => exact ⟨0, by simp [retryGo, h]⟩
    | err m =>
      by_cases h5 : strIncludes m "500" = true
      · obtain ⟨n, hn⟩ := ih (attempts + 1) (some m)
        refine ⟨n + 1, ?_⟩
        simp only [retryGo, h, h5, if_true, hn]
        rw [List.range_succ_eq_map, List.map_cons, List.map_map]
        refine congrArg₂ List.cons (by simp) ?_
        refine List.map_congr_left ?_
        intro i _
        simp only [Function.comp]
        congr 2
        omega
      · simp only [Bool.not_eq_true] at h5
        exact ⟨0, by simp [retryGo, h, h5]⟩

theorem retryGo_sleeps_only_server_error {α : Type}
    (o : Nat → AttemptResult α) :
    ∀ (fuel attempts : Nat) (le : Option String) (i : Nat),
      i < (retryGo o fuel attempts le).sleeps.length →
      ∃ m, o (attempts + i) = AttemptResult.err m ∧
        strIncludes m "500" = true := by
  intro fuel
  induction fuel with
  | zero => intro attempts le i hi; cases le <;> simp [retryGo] at hi
  | succ k ih =>
    intro attempts le i hi
    cases h : o attempts with
    | ok a => simp [retryGo, h] at hi
    | err m =>
      by_cases h5 : strIncludes m "500" = true
      · simp only [retryGo, h, h5, if_true, List.length_cons] at hi
        cases i with
        | zero => exact ⟨m, by simpa using h, h5⟩
        | succ j =>
          obtain ⟨m', hm', h5'⟩ := ih (attempts + 1) (some m) j (by omega)
          refine ⟨m', ?_, h5'⟩
          rw [show attempts + (j + 1) = attempts + 1 + j by omega]
          exact hm'
      · simp only [Bool.not_eq_true] at h5
        simp [retryGo, h, h5] at hi

theorem runRetryLoop_sleeps_eq_schedule {α : Type}
    (o : Nat → AttemptResult α) (retries : Nat) :
    (runRetryLoop o retries).sleeps =
      (List.range (runRetryLoop o retries).sleeps.length).map
        (fun i => 2 ^ i * 2000) := by
  obtain ⟨n, hn⟩ := retryGo_sleeps_schedule o retries 0 none
  rw [runRetryLoop, hn]
  simp

theorem runRetryLoop_two500_then_ok {α : Type} (o : Nat → AttemptResult α)
    (m0 m1 : String) (a : α)
    (h0 : o 0 = AttemptResult.err m0) (g0 : strIncludes m0 "500" = true)
    (h1 : o 1 = AttemptResult.err m1) (g1 : strIncludes m1 "500" = true)
    (h2 : o 2 = AttemptResult.ok a) :
    runRetryLoop o 3 = ⟨Except.ok a, [2000, 4000], 3⟩ := by
  show retryGo o (2 + 1) 0 none = _
  rw [retryGo]
  simp only [h0, g0, if_true]
  rw [show (2 : Nat) = 1 + 1 from rfl, retryGo]
  simp only [h1, g1, if_true]
  rw [show (1 : Nat) = 0 + 1 from rfl, retryGo]
  simp only [h2]
  rfl

theorem runRetryLoop_immediate_raise {α : Type} (o : Nat → AttemptResult α)
    (m : String) (h0 : o 0 = AttemptResult.err m)
    (g0 : strIncludes m "500" = false) :
    runRetryLoop o 3 = ⟨Except.error m, [], 1⟩ := by
  show retryGo o (2 + 1) 0 none = _
  rw [retryGo]
  simp [h0, g0]

theorem runRetryLoop_all500_last_error {α : Type} (o : Nat → AttemptResult α)
    (m0 m1 m2 : String)
    (h0 : o 0 = AttemptResult.err m0) (g0 : strIncludes m0 "500" = true)
    (h1 : o 1 = AttemptResult.err m1) (g1 : strIncludes m1 "500" = true)
    (h2 : o 2 = AttemptResult.err m2) (g2 : strIncludes m2 "500" = true) :
    runRetryLoop o 3 = ⟨Except.error m2, [2000, 4000, 8000], 3⟩ := by
  show retryGo o (2 + 1) 0 none = _
  rw [retryGo]
  simp only [h0, g0, if_true]
  rw [show (2 : Nat) = 1 + 1 from rfl, retryGo]
  simp only [h1, g1, if_true]
  rw [show (1 : Nat) = 0 + 1 from rfl, retryGo]
  simp only [h2, g2, if_true]
  rfl

/-- C2: For both Ledger Client operations, at most 3 attempts are made; an
attempt's failure is retried only when the error is classified as a server
error (its message includes `500`), with a backoff delay of
`2 ^ attempt * 2000` ms (2 s, then 4 s, then 8 s); any other failure is
raised immediately after a single attempt with no sleeps; and a call failing
with server errors on its first two attempts and succeeding on the third
returns the success result after exactly the 2 s and 4 s sleeps. -/
theorem c2_ledger_client_retry_policy :
    (∀ (o : Nat → AttemptResult DryRunResult),
      (sendAosDryRun o).attemptCount ≤ 3) ∧
    (∀ (o : Nat → AttemptResult SendMessageOk),
      (sendAosMessage o).attemptCount ≤ 3) ∧
    (∀ (o : Nat → AttemptResult DryRunResult),
      (sendAosDryRun o).sleeps =
        (List.range (sendAosDryRun o).sleeps.length).map
          (fun i => 2 ^ i * 2000)) ∧
    (∀ (o : Nat → AttemptResult SendMessageOk),
      (sendAosMessage o).sleeps =
        (List.range (sendAosMessage o).sleeps.length).map
          (fun i => 2 ^ i * 2000)) ∧
    (∀ (o : Nat → AttemptResult DryRunResult) (i : Nat),
      i < (sendAosDryRun o).sleeps.length →
      ∃ m, o i = AttemptResult.err m ∧ strIncludes m "500" = true) ∧
    (∀ (o : Nat → AttemptResult SendMessageOk) (i : Nat),
      i < (sendAosMessage o).sleeps.length →
      ∃ m, o i = AttemptResult.err m ∧ strIncludes m "500" = true) ∧
    (∀ (o : Nat → AttemptResult DryRunResult) (m : String),
      o 0 = AttemptResult.err m → strIncludes m "500" = false →
      sendAosDryRun o = ⟨Except.error m, [], 1⟩) ∧
    (∀ (o : Nat → AttemptResult SendMessageOk) (m : String),
      o 0 = AttemptResult.err m → strIncludes m "500" = false →
      sendAosMessage o = ⟨Except.error m, [], 1⟩) ∧
    (∀ (o : Nat → AttemptResult DryRunResult) (m0 m1 : String)
      (a : DryRunResult),
      o 0 = AttemptResult.err m0 → strIncludes m0 "500" = true →
      o 1 = AttemptResult.err m1 → strIncludes m1 "500" = true →
      o 2 = AttemptResult.ok a →
      sendAosDryRun o = ⟨Except.ok a, [2000, 4000], 3⟩) ∧
    (∀ (o : Nat → AttemptResult SendMessageOk) (m0 m1 : String)
      (a : SendMessageOk),
      o 0 = AttemptResult.err m0 → strIncludes m0 "500" = true →
      o 1 = AttemptResult.err m1 → strIncludes m1 "500" = true →
      o 2 = AttemptResult.ok a →
      sendAosMessage o = ⟨Except.ok a, [2000, 4000], 3⟩) := by
  refine ⟨fun o => retryGo_attemptCount_le o 3 0 none,
    fun o => retryGo_attemptCount_le o 3 0 none,
    fun o => runRetryLoop_sleeps_eq_schedule o 3,
    fun o => runRetryLoop_sleeps_eq_schedule o 3,
    fun o i hi => ?_, fun o i hi => ?_,
    fun o m h0 g0 => runRetryLoop_immediate_raise o m h0 g0,
    fun o m h0 g0 => runRetryLoop_immediate_raise o m h0 g0,
    fun o m0 m1 a h0 g0 h1 g1 h2 =>
      runRetryLoop_two500_then_ok o m0 m1 a h0 g0 h1 g1 h2,
    fun o m0 m1 a h0 g0 h1 g1 h2 =>
      runRetryLoop_two500_then_ok o m0 m1 a h0 g0 h1 g1 h2⟩
  · simpa using retryGo_sleeps_only_server_error o 3 0 none i hi
  · simpa using retryGo_sleeps_only_server_error o 3 0 none i hi

/-- Witness for C2 at concrete inputs: a dry run failing with server errors
on attempts 0 and 1 and succeeding on attempt 2 returns the success after
sleeps of 2 s and 4 s; a signed send failing with a non-server error raises
it immediately after one attempt with no sleeps. -/
theorem c2_ledger_client_retry_policy_witness :
    sendAosDryRun (fun n =>
      if n = 0 then AttemptResult.err "request failed: 500"
      else if n = 1 then AttemptResult.err "upstream 500 again"
      else AttemptResult.ok (dryRunWith "p1")) =
      ⟨Except.ok (dryRunWith "p1"), [2000, 4000], 3⟩ ∧
    sendAosMessage (fun _ => AttemptResult.err "bad request: 400") =
      ⟨Except.error "bad request: 400", [], 1⟩ := by
  constructor
  · exact c2_ledger_client_retry_policy.2.2.2.2.2.2.2.2.1 _
      "request failed: 500" "upstream 500 again" (dryRunWith "p1")
      rfl rfl rfl rfl rfl
  · exact c2_ledger_client_retry_policy.2.2.2.2.2.2.2.1 _
      "bad request: 400" rfl rfl

/-- C9: For both Ledger Client operations, exhausting all attempts with
retryable (server-error) failures raises the last observed error (after the
full 2 s / 4 s / 8 s backoff schedule); if the loop never runs an attempt
(non-positive retry budget), the generic `Unknown error occurred` is raised
instead. -/
theorem c9_last_error_and_generic_error :
    (∀ (o : Nat → AttemptResult DryRunResult) (m0 m1 m2 : String),
      o 0 = AttemptResult.err m0 → strIncludes m0 "500" = true →
      o 1 = AttemptResult.err m1 → strIncludes m1 "500" = true →
      o 2 = AttemptResult.err m2 → strIncludes m2 "500" = true →
      sendAosDryRun o = ⟨Except.error m2, [2000, 4000, 8000], 3⟩) ∧
    (∀ (o : Nat → AttemptResult SendMessageOk) (m0 m1 m2 : String),
      o 0 = AttemptResult.err m0 → strIncludes m0 "500" = true →
      o 1 = AttemptResult.err m1 → strIncludes m1 "500" = true →
      o 2 = AttemptResult.err m2 → strIncludes m2 "500" = true →
      sendAosMessage o = ⟨Except.error m2, [2000, 4000, 8000], 3⟩) ∧
    (∀ (o : Nat → AttemptResult DryRunResult),
      sendAosDryRun o 0 = ⟨Except.error "Unknown error occurred", [], 0⟩) ∧
    (∀ (o : Nat → AttemptResult SendMessageOk),
      sendAosMessage o 0 = ⟨Except.error "Unknown error occurred", [], 0⟩) :=
  ⟨fun o m0 m1 m2 h0 g0 h1 g1 h2 g2 =>
      runRetryLoop_all500_last_error o m0 m1 m2 h0 g0 h1 g1 h2 g2,
   fun o m0 m1 m2 h0 g0 h1 g1 h2 g2 =>
      runRetryLoop_all500_last_error o m0 m1 m2 h0 g0 h1 g1 h2 g2,
   fun _ => rfl, fun _ => rfl⟩

/-- Witness for C9 at a concrete input: three successive server errors raise
the third error message after sleeps of 2 s, 4 s and 8 s. -/
theorem c9_last_error_and_generic_error_witness :
    sendAosMessage (fun n =>
      AttemptResult.err (if n = 0 then "first 500"
        else if n = 1 then "second 500" else "third 500")) =
      ⟨Except.error "third 500", [2000, 4000, 8000], 3⟩ :=
  c9_last_error_and_generic_error.2.1 _ "first 500" "second 500" "third 500"
    rfl rfl rfl rfl rfl rfl

/-! ### Cache lemmas -/

theorem fetchFreshState_queried (cfg : ServiceConfig) (now : Nat)
    (remote : Except String DryRunResult) (s : ServiceState) :
    (fetchFreshState cfg now remote s).queried = true := by
  unfold fetchFreshState
  cases remote with
  | error e => rfl
  | ok r =>
    cases hp : parseProcessInfo cfg.jsonParse r with
    | error e => simp [hp]
    | ok info => simp [hp]

theorem fetchFreshState_ok_state (cfg : ServiceConfig) (now : Nat)
    (remote : Except String DryRunResult) (s : ServiceState)
    (info : CheeseMintCollectionState)
    (h : (fetchFreshState cfg now remote s).result = Except.ok info) :
    (fetchFreshState cfg now remote s).state = ⟨some info, now⟩ := by
  unfold fetchFreshState at h ⊢
  cases remote with
  | error e => simp at h
  | ok r =>
    cases hp : parseProcessInfo cfg.jsonParse r with
    | error e => simp [hp] at h
    | ok i =>
      simp [hp] at h ⊢
      rw [h]

theorem fetchFreshState_error_state (cfg : ServiceConfig) (now : Nat)
    (remote : Except String DryRunResult) (s : ServiceState) (e : String)
    (h : (fetchFreshState cfg now remote s).result = Except.error e) :
    (fetchFreshState cfg now remote s).state = s := by
  unfold fetchFreshState at h ⊢
  cases remote with
  | error e2 => rfl
  | ok r =>
    cases hp : parseProcessInfo cfg.jsonParse r with
    | error e2 => simp [hp]
    | ok i => simp [hp] at h

theorem fetchFreshState_of_parse_ok (cfg : ServiceConfig) (now : Nat)
    (r : DryRunResult) (s : ServiceState) (info : CheeseMintCollectionState)
    (hp : parseProcessInfo cfg.jsonParse r = Except.ok info) :
    fetchFreshState cfg now (Except.ok r) s =
      ⟨Except.ok info, ⟨some info, now⟩, true⟩ := by
  unfold fetchFreshState
  simp [hp]

theorem getProcessState_cached (cfg : ServiceConfig) (now : Nat)
    (remote : Except String DryRunResult) (s : ServiceState)
    (st : CheeseMintCollectionState) (hc : s.stateCache = some st)
    (hfresh : now - s.stateCacheTimestamp < cfg.stateCacheTtlMs) :
    getProcessState cfg now remote s = ⟨Except.ok st, s, false⟩ := by
  unfold getProcessState
  rw [hc]
  simp [hfresh]

theorem getProcessState_queried_eq_fetch (cfg : ServiceConfig) (now : Nat)
    (remote : Except String DryRunResult) (s : ServiceState)
    (forceRefresh : Bool)
    (h : (getProcessState cfg now remote s forceRefresh).queried = true) :
    getProcessState cfg now remote s forceRefresh =
      fetchFreshState cfg now remote s := by
  obtain ⟨cache, ts⟩ := s
  cases cache with
  | none => rfl
  | some cached =>
    by_cases hcond : forceRefresh = false ∧ now - ts < cfg.stateCacheTtlMs
    · simp [getProcessState, hcond] at h
    · simp [getProcessState, hcond]

theorem getProcessState_error_state (cfg : ServiceConfig) (now : Nat)
    (remote : Except String DryRunResult) (s : ServiceState)
    (forceRefresh : Bool) (e : String)
    (h : (getProcessState cfg now remote s forceRefresh).result =
      Except.error e) :
    (getProcessState cfg now remote s forceRefresh).state = s := by
  obtain ⟨cache, ts⟩ := s
  cases cache with
  | none => exact fetchFreshState_error_state cfg now remote _ e h
  | some cached =>
    by_cases hcond : forceRefresh = false ∧ now - ts < cfg.stateCacheTtlMs
    · simp [getProcessState, hcond] at h
    · simp only [getProcessState, hcond, if_false] at h ⊢
      exact fetchFreshState_error_state cfg now remote _ e h

/-- C3: A `getProcessState()` call finding a non-null cached state younger
than the TTL returns it without issuing a remote query; two sequential calls
within the TTL window (the first succeeding) issue at most one remote query;
and a call after TTL expiry, or on the state left by `invalidateStateCache`,
issues a new remote dry-run query and, on success, replaces the cached state
and timestamp wholesale. -/
theorem c3_state_cache_contract :
    (∀ (cfg : ServiceConfig) (now : Nat) (remote : Except String DryRunResult)
      (s : ServiceState) (st : CheeseMintCollectionState),
      s.stateCache = some st →
      now - s.stateCacheTimestamp < cfg.stateCacheTtlMs →
      getProcessState cfg now remote s = ⟨Except.ok st, s, false⟩) ∧
    (∀ (cfg : ServiceConfig) (now1 now2 : Nat)
      (remote1 remote2 : Except String DryRunResult) (s : ServiceState),
      (∃ st, (getProcessState cfg now1 remote1 s).result = Except.ok st) →
      now2 - now1 < cfg.stateCacheTtlMs →
      ¬((getProcessState cfg now1 remote1 s).queried = true ∧
        (getProcessState cfg now2 remote2
          (getProcessState cfg now1 remote1 s).state).queried = true)) ∧
    (∀ (cfg : ServiceConfig) (now : Nat) (remote : Except String DryRunResult)
      (s : ServiceState),
      cfg.stateCacheTtlMs ≤ now - s.stateCacheTimestamp →
      (getProcessState cfg now remote s).queried = true ∧
      (∀ (r : DryRunResult) (info : CheeseMintCollectionState),
        remote = Except.ok r →
        parseProcessInfo cfg.jsonParse r = Except.ok info →
        (getProcessState cfg now remote s).state = ⟨some info, now⟩)) ∧
    (∀ (cfg : ServiceConfig) (now : Nat)
      (remote : Except String DryRunResult),
      (getProcessState cfg now remote invalidateStateCache).queried = true ∧
      (∀ (r : DryRunResult) (info : CheeseMintCollectionState),
        remote = Except.ok r →
        parseProcessInfo cfg.jsonParse r = Except.ok info →
        (getProcessState cfg now remote invalidateStateCache).state =
          ⟨some info, now⟩)) := by
  refine ⟨fun cfg now remote s st hc hfresh =>
      getProcessState_cached cfg now remote s st hc hfresh,
    ?_, ?_, ?_⟩
  · rintro cfg now1 now2 remote1 remote2 s ⟨st, hst⟩ hwin ⟨hq1, hq2⟩
    have h1 := getProcessState_queried_eq_fetch cfg now1 remote1 s false hq1
    rw [h1] at hst
    have hstate := fetchFreshState_ok_state cfg now1 remote1 s st hst
    rw [h1, hstate] at hq2
    rw [getProcessState_cached cfg now2 remote2 ⟨some st, now1⟩ st rfl
      (by simpa using hwin)] at hq2
    simp at hq2
  · intro cfg now remote s hstale
    have hfetch : getProcessState cfg now remote s =
        fetchFreshState cfg now remote s := by
      obtain ⟨cache, ts⟩ := s
      cases cache with
      | none => rfl
      | some cached =>
        simp only [getProcessState]
        rw [if_neg]
        simp only [not_and]
        intro _
        simp only [ServiceState.stateCacheTimestamp] at hstale
        omega
    refine ⟨by rw [hfetch]; exact fetchFreshState_queried cfg now remote s,
      fun r info hr hp => ?_⟩
    rw [hfetch, hr, fetchFreshState_of_parse_ok cfg now r s info hp]
  · intro cfg now remote
    refine ⟨fetchFreshState_queried cfg now remote _, fun r info hr hp => ?_⟩
    show (fetchFreshState cfg now remote _).state = _
    rw [hr, fetchFreshState_of_parse_ok cfg now r _ info hp]

/-- Witness for C3 at concrete inputs: with a freshly cached state, a second
call 10 ms later is served from the cache without a remote query. -/
theorem c3_state_cache_contract_witness :
    getProcessState sampleConfig 10 (Except.ok (dryRunWith "p2"))
      ⟨some sampleStateNoAward, 0⟩ =
      ⟨Except.ok sampleStateNoAward, ⟨some sampleStateNoAward, 0⟩, false⟩ :=
  c3_state_cache_contract.1 sampleConfig 10 (Except.ok (dryRunWith "p2"))
    ⟨some sampleStateNoAward, 0⟩ sampleStateNoAward rfl (by decide)

/-- C4: Every unparsable dry-run payload (missing `Messages`, empty
`Messages`, missing first-message `Data`, or `Data` that fails JSON
decoding) makes `parseProcessInfo` produce the descriptive
`Invalid process info format` error; a `getProcessState` call that ends in
any error leaves the cached state and timestamp exactly as they were; and
when the call consults the remote and the payload fails to parse, that parse
error is what the call raises, with the cache untouched. -/
theorem c4_parse_failure_leaves_cache :
    (∀ (jp : String → Option CheeseMintCollectionState),
      parseProcessInfo jp ⟨none⟩ = Except.error "Invalid process info format") ∧
    (∀ (jp : String → Option CheeseMintCollectionState),
      parseProcessInfo jp ⟨some []⟩ =
        Except.error "Invalid process info format") ∧
    (∀ (jp : String → Option CheeseMintCollectionState)
      (tl : List DryRunMessage),
      parseProcessInfo jp ⟨some (⟨none⟩ :: tl)⟩ =
        Except.error "Invalid process info format") ∧
    (∀ (jp : String → Option CheeseMintCollectionState) (d : String)
      (tl : List DryRunMessage),
      jp d = none →
      parseProcessInfo jp ⟨some (⟨some d⟩ :: tl)⟩ =
        Except.error "Invalid process info format") ∧
    (∀ (cfg : ServiceConfig) (now : Nat)
      (remote : Except String DryRunResult) (s : ServiceState)
      (forceRefresh : Bool) (e : String),
      (getProcessState cfg now remote s forceRefresh).result =
        Except.error e →
      (getProcessState cfg now remote s forceRefresh).state = s) ∧
    (∀ (cfg : ServiceConfig) (now : Nat) (r : DryRunResult)
      (s : ServiceState) (forceRefresh : Bool) (e : String),
      parseProcessInfo cfg.jsonParse r = Except.error e →
      (getProcessState cfg now (Except.ok r) s forceRefresh).queried = true →
      (getProcessState cfg now (Except.ok r) s forceRefresh).result =
          Except.error e ∧
        (getProcessState cfg now (Except.ok r) s forceRefresh).state = s) := by
  refine ⟨fun jp => rfl, fun jp => rfl, fun jp tl => rfl,
    fun jp d tl hd => ?_, getProcessState_error_state, ?_⟩
  · unfold parseProcessInfo
    by_cases hempty : d = ""
    · simp [hempty]
    · simp [hempty, hd]
  · intro cfg now r s forceRefresh e hp hq
    have hfetch := getProcessState_queried_eq_fetch cfg now (Except.ok r) s
      forceRefresh hq
    rw [hfetch]
    unfold fetchFreshState
    simp [hp]

/-- Witness for C4 at a concrete input: a payload that fails JSON decoding
raises the descriptive error and leaves the initial (empty) cache and
timestamp untouched. -/
theorem c4_parse_failure_leaves_cache_witness :
    parseProcessInfo sampleConfig.jsonParse (dryRunWith "garbage") =
        Except.error "Invalid process info format" ∧
      (getProcessState sampleConfig 7 (Except.ok (dryRunWith "garbage"))
          initialServiceState false).result =
        Except.error "Invalid process info format" ∧
      (getProcessState sampleConfig 7 (Except.ok (dryRunWith "garbage"))
          initialServiceState false).state = initialServiceState := by
  have h4 := c4_parse_failure_leaves_cache.2.2.2.1 sampleConfig.jsonParse
    "garbage" [] (by decide)
  have h6 := c4_parse_failure_leaves_cache.2.2.2.2.2 sampleConfig 7
    (dryRunWith "garbage") initialServiceState false
    "Invalid process info format" h4 rfl
  exact ⟨h4, h6.1, h6.2⟩

/-! ### Award lemmas -/

theorem hasAchievement_found (cfg : ServiceConfig) (now : Nat)
    (r : DryRunResult) (st : CheeseMintCollectionState)
    (awards : List (String × CheeseMintAward))
    (walletAddress achievementId : String)
    (hp : parseProcessInfo cfg.jsonParse r = Except.ok st)
    (ha : jsGet st.cheese_mints_by_address walletAddress = some awards)
    (hrec : (jsGet awards achievementId).isSome = true) :
    hasAchievement cfg now (Except.ok r) invalidateStateCache walletAddress
      achievementId = ⟨Except.ok true, ⟨some st, now⟩, true⟩ := by
  have hg : getProcessState cfg now (Except.ok r) invalidateStateCache =
      ⟨Except.ok st, ⟨some st, now⟩, true⟩ :=
    fetchFreshState_of_parse_ok cfg now r invalidateStateCache st hp
  unfold hasAchievement
  rw [hg]
  simp [ha, hrec]

theorem awardAchievement_sends_on_miss (cfg : ServiceConfig)
    (ids : List (String × String)) (now : Nat)
    (remote : Except String DryRunResult)
    (sendOutcome : Except String SendMessageOk) (s : ServiceState)
    (achievementName walletAddress achievementId : String)
    (hid : jsGet ids achievementName = some achievementId)
    (hmiss : (hasAchievement cfg now remote s walletAddress
      achievementId).result = Except.ok false) :
    awardAchievement cfg ids now remote sendOutcome s achievementName
        walletAddress =
      match sendOutcome with
      | Except.ok _ =>
        ⟨Except.ok (), invalidateStateCache,
         (hasAchievement cfg now remote s walletAddress
           achievementId).queried,
         [awardTags achievementId walletAddress]⟩
      | Except.error e =>
        ⟨Except.error e,
         (hasAchievement cfg now remote s walletAddress achievementId).state,
         (hasAchievement cfg now remote s walletAddress
           achievementId).queried,
         [awardTags achievementId walletAddress]⟩ := by
  unfold awardAchievement getAchievementId
  rw [hid]
  simp only [hmiss]

theorem awardAchievement_skips_when_found (cfg : ServiceConfig)
    (ids : List (String × String)) (now : Nat)
    (remote : Except String DryRunResult)
    (sendOutcome : Except String SendMessageOk) (s : ServiceState)
    (achievementName walletAddress achievementId : String)
    (hid : jsGet ids achievementName = some achievementId)
    (hfound : (hasAchievement cfg now remote s walletAddress
      achievementId).result = Except.ok true) :
    awardAchievement cfg ids now remote sendOutcome s achievementName
        walletAddress =
      ⟨Except.ok (),
       (hasAchievement cfg now remote s walletAddress achievementId).state,
       (hasAchievement cfg now remote s walletAddress achievementId).queried,
       []⟩ := by
  unfold awardAchievement getAchievementId
  rw [hid]
  simp only [hfound]

/-- C1: When an achievement name resolves to an id, a first
`awardAchievement` call whose idempotency check finds no existing award
record and whose signed send succeeds emits exactly one outbound send
message; a second sequential call, whose ledger-state read yields a snapshot
containing the award record for `(wallet, achievementId)`, observes it via
`hasAchievement` and returns without sending — so the two calls emit exactly
one outbound send message in total. -/
theorem c1_award_idempotent_second_call (cfg : ServiceConfig)
    (ids : List (String × String)) (now1 now2 : Nat)
    (remote1 : Except String DryRunResult) (sendOk : SendMessageOk)
    (send2 : Except String SendMessageOk) (s0 : ServiceState)
    (achievementName walletAddress achievementId : String)
    (r2 : DryRunResult) (st2 : CheeseMintCollectionState)
    (awards : List (String × CheeseMintAward))
    (hid : jsGet ids achievementName = some achievementId)
    (hmiss : (hasAchievement cfg now1 remote1 s0 walletAddress
      achievementId).result = Except.ok false)
    (hp2 : parseProcessInfo cfg.jsonParse r2 = Except.ok st2)
    (ha2 : jsGet st2.cheese_mints_by_address walletAddress = some awards)
    (hrec2 : (jsGet awards achievementId).isSome = true) :
    (awardAchievement cfg ids now1 remote1 (Except.ok sendOk) s0
        achievementName walletAddress).sends =
      [awardTags achievementId walletAddress] ∧
    (awardAchievement cfg ids now2 (Except.ok r2) send2
        (awardAchievement cfg ids now1 remote1 (Except.ok sendOk) s0
          achievementName walletAddress).state
        achievementName walletAddress).result = Except.ok () ∧
    (awardAchievement cfg ids now2 (Except.ok r2) send2
        (awardAchievement cfg ids now1 remote1 (Except.ok sendOk) s0
          achievementName walletAddress).state
        achievementName walletAddress).sends = [] := by
  have h1 := awardAchievement_sends_on_miss cfg ids now1 remote1
    (Except.ok sendOk) s0 achievementName walletAddress achievementId hid
    hmiss
  have hstate1 : (awardAchievement cfg ids now1 remote1 (Except.ok sendOk) s0
      achievementName walletAddress).state = invalidateStateCache := by
    rw [h1]
  have hfound2 : (hasAchievement cfg now2 (Except.ok r2) invalidateStateCache
      walletAddress achievementId).result = Except.ok true := by
    rw [hasAchievement_found cfg now2 r2 st2 awards walletAddress
      achievementId hp2 ha2 hrec2]
  have h2 := awardAchievement_skips_when_found cfg ids now2 (Except.ok r2)
    send2 invalidateStateCache achievementName walletAddress achievementId
    hid hfound2
  refine ⟨by rw [h1], ?_, ?_⟩
  · rw [hstate1, h2]
  · rw [hstate1, h2]

/-- Witness for C1 at concrete inputs: awarding `Wuzzy Searcher` to
`walletU` from an empty cache (first read sees no award, send succeeds),
then calling again with the remote now reporting the award record, sends
exactly one message in total. -/
theorem c1_award_idempotent_second_call_witness :
    (awardAchievement sampleConfig [(ACHIEVEMENT_WUZZY_SEARCHER, "a1")] 5
        (Except.ok (dryRunWith "p1")) (Except.ok ⟨"mid-1", ⟨"ok"⟩⟩)
        initialServiceState ACHIEVEMENT_WUZZY_SEARCHER "walletU").sends =
      [awardTags "a1" "walletU"] ∧
    (awardAchievement sampleConfig [(ACHIEVEMENT_WUZZY_SEARCHER, "a1")] 9
        (Except.ok (dryRunWith "p2")) (Except.ok ⟨"mid-2", ⟨"ok"⟩⟩)
        (awardAchievement sampleConfig [(ACHIEVEMENT_WUZZY_SEARCHER, "a1")] 5
          (Except.ok (dryRunWith "p1")) (Except.ok ⟨"mid-1", ⟨"ok"⟩⟩)
          initialServiceState ACHIEVEMENT_WUZZY_SEARCHER "walletU").state
        ACHIEVEMENT_WUZZY_SEARCHER "walletU").result = Except.ok () ∧
    (awardAchievement sampleConfig [(ACHIEVEMENT_WUZZY_SEARCHER, "a1")] 9
        (Except.ok (dryRunWith "p2")) (Except.ok ⟨"mid-2", ⟨"ok"⟩⟩)
        (awardAchievement sampleConfig [(ACHIEVEMENT_WUZZY_SEARCHER, "a1")] 5
          (Except.ok (dryRunWith "p1")) (Except.ok ⟨"mid-1", ⟨"ok"⟩⟩)
          initialServiceState ACHIEVEMENT_WUZZY_SEARCHER "walletU").state
        ACHIEVEMENT_WUZZY_SEARCHER "walletU").sends = [] :=
  c1_award_idempotent_second_call sampleConfig
    [(ACHIEVEMENT_WUZZY_SEARCHER, "a1")] 5 9 (Except.ok (dryRunWith "p1"))
    ⟨"mid-1", ⟨"ok"⟩⟩ (Except.ok ⟨"mid-2", ⟨"ok"⟩⟩) initialServiceState
    ACHIEVEMENT_WUZZY_SEARCHER "walletU" "a1" (dryRunWith "p2")
    sampleStateAwarded [("a1", sampleAward)] rfl rfl rfl rfl rfl

/-- C10 counterexample: the claim "when the signed send inside
`awardAchievement` fails, the cached ledger state and timestamp are left
exactly as they were before the call" is false: starting from an empty
cache, the idempotency check inside the call refreshes the cache before the
send, so after a failing send the cache differs from its pre-call value
even though the error is re-raised unchanged. -/
theorem c10_send_failure_cache_counterexample :
    (awardAchievement sampleConfig [(ACHIEVEMENT_WUZZY_SEARCHER, "a1")] 5
        (Except.ok (dryRunWith "p1")) (Except.error "boom")
        initialServiceState ACHIEVEMENT_WUZZY_SEARCHER "walletU").result =
      Except.error "boom" ∧
    ¬((awardAchievement sampleConfig [(ACHIEVEMENT_WUZZY_SEARCHER, "a1")] 5
        (Except.ok (dryRunWith "p1")) (Except.error "boom")
        initialServiceState ACHIEVEMENT_WUZZY_SEARCHER "walletU").state =
      initialServiceState) := by
  constructor
  · rfl
  · decide

/-- C10 (amended): when the signed send inside `awardAchievement` fails, the
error is re-raised to the caller unchanged and the cache is not invalidated
— it is left exactly as the idempotency check left it (that check may itself
have refreshed the cache from the remote); cache invalidation happens only
after a successful send. -/
theorem c10_send_failure_frame (cfg : ServiceConfig)
    (ids : List (String × String)) (now : Nat)
    (remote : Except String DryRunResult) (s : ServiceState)
    (achievementName walletAddress achievementId : String)
    (hid : jsGet ids achievementName = some achievementId)
    (hmiss : (hasAchievement cfg now remote s walletAddress
      achievementId).result = Except.ok false) :
    (∀ (e : String),
      awardAchievement cfg ids now remote (Except.error e) s achievementName
          walletAddress =
        ⟨Except.error e,
         (hasAchievement cfg now remote s walletAddress achievementId).state,
         (hasAchievement cfg now remote s walletAddress
           achievementId).queried,
         [awardTags achievementId walletAddress]⟩) ∧
    (∀ (okv : SendMessageOk),
      (awardAchievement cfg ids now remote (Except.ok okv) s achievementName
        walletAddress).state = invalidateStateCache) := by
  constructor
  · intro e
    rw [awardAchievement_sends_on_miss cfg ids now remote (Except.error e) s
      achievementName walletAddress achievementId hid hmiss]
  · intro okv
    rw [awardAchievement_sends_on_miss cfg ids now remote (Except.ok okv) s
      achievementName walletAddress achievementId hid hmiss]

/-- Witness for the amended C10 at concrete inputs: a failing send re-raises
`boom` and leaves the cache exactly as the idempotency check left it (the
freshly fetched snapshot), not invalidated. -/
theorem c10_send_failure_frame_witness :
    awardAchievement sampleConfig [(ACHIEVEMENT_WUZZY_SEARCHER, "a1")] 5
        (Except.ok (dryRunWith "p1")) (Except.error "boom")
        initialServiceState ACHIEVEMENT_WUZZY_SEARCHER "walletU" =
      ⟨Except.error "boom",
       (hasAchievement sampleConfig 5 (Except.ok (dryRunWith "p1"))
         initialServiceState "walletU" "a1").state,
       (hasAchievement sampleConfig 5 (Except.ok (dryRunWith "p1"))
         initialServiceState "walletU" "a1").queried,
       [awardTags "a1" "walletU"]⟩ :=
  (c10_send_failure_frame sampleConfig [(ACHIEVEMENT_WUZZY_SEARCHER, "a1")] 5
    (Except.ok (dryRunWith "p1")) initialServiceState
    ACHIEVEMENT_WUZZY_SEARCHER "walletU" "a1" rfl rfl).1 "boom"

/-! ### Startup lemmas -/

theorem verifyInitialization_queried (cfg : ServiceConfig) (now : Nat)
    (remote : Except String DryRunResult) (ids : List (String × String))
    (s : ServiceState) :
    (verifyInitialization cfg now remote ids s).queried =
      (getProcessState cfg now remote s).queried := by
  unfold verifyInitialization
  cases hg : (getProcessState cfg now remote s).result with
  | error e => simp [hg]
  | ok st =>
    simp only [hg]
    rcases hv : verifyAclPermissions cfg.walletAddress st with ⟨vres, vlogs⟩
    cases vres with
    | error e => simp
    | ok u =>
      rcases hl : loadAchievementIds ids st with ⟨lres, llogs⟩
      cases lres with
      | error e => simp
      | ok m => simp

/-- C8 counterexample: the claim "the startup sequence's ledger-state fetch
forces a fresh fetch that bypasses the cache" is false: `verifyInitialization`
calls `getProcessState()` without `forceRefresh`, so run on a service state
holding a fresh cached snapshot it issues no remote query at all and the
checks consume the cached snapshot. -/
theorem c8_startup_fetch_counterexample :
    (verifyInitialization sampleConfig 10 (Except.ok (dryRunWith "p2")) []
      ⟨some sampleStateNoAward, 0⟩).queried = false := by
  decide

/-- C8 (amended): the startup fetch does not pass `forceRefresh`; the state
used by the startup checks is obtained by a remote query only because the
service starts with an empty cache (`stateCache = null`, timestamp `0`),
from which `getProcessState()` always fetches remotely. -/
theorem c8_startup_fetch_from_initial_state (cfg : ServiceConfig) (now : Nat)
    (remote : Except String DryRunResult) (ids : List (String × String)) :
    (verifyInitialization cfg now remote ids initialServiceState).queried =
      true := by
  rw [verifyInitialization_queried]
  exact fetchFreshState_queried cfg now remote initialServiceState

theorem verifyAclPermissions_ok_iff (w : String)
    (info : CheeseMintCollectionState) :
    ((verifyAclPermissions w info).1 = Except.ok ()) ↔
      walletEnabled info w = true := by
  obtain ⟨ow, acl, byId, byAddr⟩ := info
  cases acl with
  | none => simp [verifyAclPermissions, walletEnabled]
  | some a =>
    obtain ⟨roles⟩ := a
    cases roles with
    | none => simp [verifyAclPermissions, walletEnabled]
    | some rl =>
      cases hr : jsGet rl "Award-Cheese-Mint" with
      | none => simp [verifyAclPermissions, walletEnabled, hr]
      | some perms =>
        by_cases ht : jsTruthy (jsGet perms w) = true
        · simp [verifyAclPermissions, walletEnabled, hr, ht]
        · simp only [Bool.not_eq_true] at ht
          simp [verifyAclPermissions, walletEnabled, hr, ht]

/-- C7: the ACL check succeeds exactly when the derived wallet address is
enabled under the `Award-Cheese-Mint` role; when the role is configured but
the wallet is not enabled, the check fails with the descriptive permission
error and an error log listing the allowed (enabled) addresses; the
achievement load fails exactly when a required name is missing, naming the
missing names; and the composed startup verification (run from the initial
empty-cache state on a parsable ledger snapshot) succeeds iff the wallet is
enabled and the achievement load succeeds. -/
theorem c7_startup_verification :
    (∀ (w : String) (info : CheeseMintCollectionState),
      ((verifyAclPermissions w info).1 = Except.ok ()) ↔
        walletEnabled info w = true) ∧
    (∀ (w : String) (info : CheeseMintCollectionState)
      (a : CheeseMintCollectionACLState)
      (roles : List (String × List (String × Bool)))
      (perms : List (String × Bool)),
      info.acl = some a → a.roles = some roles →
      jsGet roles "Award-Cheese-Mint" = some perms →
      jsTruthy (jsGet perms w) = false →
      verifyAclPermissions w info =
        (Except.error
          "Wallet does not have Award-Cheese-Mint permission in AO process",
         ["Wallet " ++ w ++ " is not in Award-Cheese-Mint ACL",
          "Allowed addresses: " ++ String.intercalate ", "
            ((perms.filter (fun p => p.2)).map (fun p => p.1))])) ∧
    (∀ (info : CheeseMintCollectionState)
      (mintsById : List (String × CheeseMint)),
      info.cheese_mints_by_id = some mintsById →
      (missingRequired
          (mintsById.foldl (fun acc p => mapSet acc p.2.name p.1) []) = [] →
        loadAchievementIds [] info =
          (Except.ok
            (mintsById.foldl (fun acc p => mapSet acc p.2.name p.1) []),
           [])) ∧
      (missingRequired
          (mintsById.foldl (fun acc p => mapSet acc p.2.name p.1) []) ≠ [] →
        (loadAchievementIds [] info).1 =
          Except.error ("Required achievements not found: " ++
            String.intercalate ", "
              (missingRequired
                (mintsById.foldl (fun acc p => mapSet acc p.2.name p.1)
                  []))))) ∧
    (∀ (cfg : ServiceConfig) (now : Nat) (r : DryRunResult)
      (info : CheeseMintCollectionState),
      parseProcessInfo cfg.jsonParse r = Except.ok info →
      ((verifyInitialization cfg now (Except.ok r) []
          initialServiceState).result.isOk = true ↔
        (walletEnabled info cfg.walletAddress = true ∧
          (loadAchievementIds [] info).1.isOk = true))) := by
  refine ⟨verifyAclPermissions_ok_iff, ?_, ?_, ?_⟩
  · intro w info a roles perms hacl hroles hr ht
    obtain ⟨ow, acl, byId, byAddr⟩ := info
    simp only at hacl
    subst hacl
    obtain ⟨aroles⟩ := a
    simp only at hroles
    subst hroles
    simp [verifyAclPermissions, hr, ht]
  · intro info mintsById hby
    obtain ⟨ow, acl, byId, byAddr⟩ := info
    simp only at hby
    subst hby
    constructor
    · intro hmiss
      simp [loadAchievementIds, hmiss]
    · intro hmiss
      simp [loadAchievementIds, hmiss]
  · intro cfg now r info hp
    have hg : getProcessState cfg now (Except.ok r) initialServiceState =
        ⟨Except.ok info, ⟨some info, now⟩, true⟩ :=
      fetchFreshState_of_parse_ok cfg now r initialServiceState info hp
    have hiff := verifyAclPermissions_ok_iff cfg.walletAddress info
    unfold verifyInitialization
    rw [hg]
    rcases hv : verifyAclPermissions cfg.walletAddress info with ⟨vres, vlogs⟩
    rw [hv] at hiff
    cases vres with
    | error e =>
      simp only [hv]
      simp only [reduceCtorEq, false_iff, Bool.not_eq_true] at hiff
      simp [Except.isOk, Except.toBool, hiff]
    | ok u =>
      cases u
      have henabled : walletEnabled info cfg.walletAddress = true :=
        hiff.mp rfl
      simp only [hv]
      rcases hl : loadAchievementIds [] info with ⟨lres, llogs⟩
      simp only [hl]
      cases lres with
      | error e => simp [Except.isOk, Except.toBool, henabled]
      | ok m => simp [Except.isOk, Except.toBool, henabled]

/-- Witness for C7 at a concrete input: on a snapshot whose ACL enables the
service wallet and whose catalog holds all five required achievements, the
composed startup verification succeeds. -/
theorem c7_startup_verification_witness :
    (verifyInitialization sampleConfig 3 (Except.ok (dryRunWith "p1")) []
      initialServiceState).result.isOk = true :=
  (c7_startup_verification.2.2.2 sampleConfig 3 (dryRunWith "p1")
    sampleStateNoAward rfl).mpr (by decide)

/-- C5: For every dequeued event of one of the four routed types whose
wallet validates (with the normalized wallet and type present and
non-empty), and whose two award calls succeed, the processor invokes
`awardAchievement` exactly twice, in order — the generic `Wuzzy Searcher`
followed by the event-type-specific achievement — and returns a result
record with `success = true`, the event's type as `eventType`, the
normalized wallet, the wallet type, the processing timestamp, and the
event's metadata. -/
theorem c5_routing_two_awards (job : JobInfo) (validation : ValidationResult)
    (nowIso : String) (ao : Nat → Except String Unit) (nw wt : String)
    (hvalid : validation.valid = true)
    (hn : validation.normalized = some nw) (ht : validation.type = some wt)
    (hnw : nw ≠ "") (hwt : wt ≠ "")
    (ha0 : ao 0 = Except.ok ()) (ha1 : ao 1 = Except.ok ()) :
    (job.name = "arns-search" →
      processRewardJob job validation nowIso ao =
        ⟨Except.ok ⟨true, "arns-search", nw, wt, nowIso, job.data.metadata⟩,
         [(ACHIEVEMENT_WUZZY_SEARCHER, nw),
          (ACHIEVEMENT_WUZZY_ARNS_SEARCHER, nw)]⟩) ∧
    (job.name = "image-search" →
      processRewardJob job validation nowIso ao =
        ⟨Except.ok ⟨true, "image-search", nw, wt, nowIso, job.data.metadata⟩,
         [(ACHIEVEMENT_WUZZY_SEARCHER, nw),
          (ACHIEVEMENT_WUZZY_IMAGE_SEARCHER, nw)]⟩) ∧
    (job.name = "audio-search" →
      processRewardJob job validation nowIso ao =
        ⟨Except.ok ⟨true, "audio-search", nw, wt, nowIso, job.data.metadata⟩,
         [(ACHIEVEMENT_WUZZY_SEARCHER, nw),
          (ACHIEVEMENT_WUZZY_AUDIO_SEARCHER, nw)]⟩) ∧
    (job.name = "video-search" →
      processRewardJob job validation nowIso ao =
        ⟨Except.ok ⟨true, "video-search", nw, wt, nowIso, job.data.metadata⟩,
         [(ACHIEVEMENT_WUZZY_SEARCHER, nw),
          (ACHIEVEMENT_WUZZY_VIDEO_SEARCHER, nw)]⟩) := by
  refine ⟨fun hname => ?_, fun hname => ?_, fun hname => ?_, fun hname => ?_⟩
  all_goals
    simp only [processRewardJob, hvalid, Bool.true_eq_false, if_false, hn, ht]
    rw [if_neg (by simp [hnw, hwt])]
    simp [handleEvent, hname, handleArnsSearch, handleImageSearch,
      handleAudioSearch, handleVideoSearch, ha0, ha1]

/-- Witness for C5 at a concrete input: an `arns-search` job for a validated
Arweave wallet awards `Wuzzy Searcher` then `Wuzzy ArNS Searcher` and
returns the structured success record. -/
theorem c5_routing_two_awards_witness :
    processRewardJob ⟨"arns-search", ⟨"arns-search", "rawWallet", none⟩⟩
        ⟨true, some "arweave", some "normWallet", none⟩ "2026-01-01T00:00:00Z"
        (fun _ => Except.ok ()) =
      ⟨Except.ok ⟨true, "arns-search", "normWallet", "arweave",
        "2026-01-01T00:00:00Z", none⟩,
       [(ACHIEVEMENT_WUZZY_SEARCHER, "normWallet"),
        (ACHIEVEMENT_WUZZY_ARNS_SEARCHER, "normWallet")]⟩ :=
  (c5_routing_two_awards ⟨"arns-search", ⟨"arns-search", "rawWallet", none⟩⟩
    ⟨true, some "arweave", some "normWallet", none⟩ "2026-01-01T00:00:00Z"
    (fun _ => Except.ok ()) "normWallet" "arweave" rfl rfl rfl
    (by decide) (by decide) rfl rfl).1 rfl

/-- C6: For every dequeued event whose wallet address fails validation, the
processor raises an error prefixed `Wallet validation failed:` carrying the
validator's message, with zero `awardAchievement` invocations, and that
error is the job's outcome (re-raised to the queue engine, not swallowed). -/
theorem c6_validation_failure_no_awards (job : JobInfo)
    (validation : ValidationResult) (nowIso : String)
    (ao : Nat → Except String Unit)
    (hinvalid : validation.valid = false) :
    processRewardJob job validation nowIso ao =
      ⟨Except.error ("Wallet validation failed: " ++ jsShow validation.error),
       []⟩ := by
  simp [processRewardJob, hinvalid]

/-- Witness for C6 at a concrete input: an event with an invalid wallet
fails with the validation-failure message and no award invocations. -/
theorem c6_validation_failure_no_awards_witness :
    processRewardJob ⟨"arns-search",
        ⟨"arns-search", "invalid-wallet-address", none⟩⟩
        ⟨false, none, none, some "Invalid wallet address format"⟩
        "2026-01-01T00:00:00Z" (fun _ => Except.ok ()) =
      ⟨Except.error "Wallet validation failed: Invalid wallet address format",
       []⟩ :=
  c6_validation_failure_no_awards ⟨"arns-search",
      ⟨"arns-search", "invalid-wallet-address", none⟩⟩
    ⟨false, none, none, some "Invalid wallet address format"⟩
    "2026-01-01T00:00:00Z" (fun _ => Except.ok ()) rfl
